import Mathlib

set_option maxRecDepth 8000

/-!
Verification development for the DebugUtils object-path codec and resolver.

The definitions below are a shallow embedding of `FPathStructure.cpp` and
`UWorldNavigator.cpp`: `FString` becomes `String`, `TArray` becomes `List`,
`int32` becomes `Int` with explicit two's-complement wraparound where the
C++ performs 32-bit arithmetic, out-parameter/bool pairs become
`Except`/`Option`, and `nullptr` results become `Option.none`.  Live engine
objects (worlds, levels, actors, components) are modelled as plain values;
pointer equality becomes structural equality on those values.
-/

/-- Parsed path record, mirroring `struct FPathStructure`. -/
structure FPathStructure where
  WorldName : String
  LevelName : String
  LevelIndex : Int
  ActorName : String
  ActorIndex : Int
  ComponentNames : List String
  ComponentIndices : List Int
  deriving DecidableEq, Repr

/-- Mode register of the parser, mirroring `enum ECurrentFillingMode`. -/
inductive ECurrentFillingMode where
  | World
  | Level
  | LevelIdx
  | Actor
  | ActorIdx
  | Component
  | ComponentIndex
  deriving DecidableEq, Repr

/-- Two's-complement wraparound to a signed 32-bit value, used wherever the
C++ performs `int32` arithmetic that can overflow. -/
def int32wrap (n : Int) : Int :=
  (n + 2147483648) % 4294967296 - 2147483648

/-- Loop body of `FPathStructure::TryParseInt`: reject non-digits, otherwise
accumulate `Result = Result * 10 + (c - '0')` in 32-bit signed arithmetic. -/
def tryParseIntAux : List Char → Int → Option Int
  | [], acc => some acc
  | c :: rest, acc =>
    if c < '0' ∨ '9' < c then none
    else tryParseIntAux rest (int32wrap (int32wrap (acc * 10) + ((c.toNat : Int) - 48)))

/-- `FPathStructure::TryParseInt` (bool + out-param modelled as `Option`). -/
def FPathStructure.TryParseInt (NumberString : String) : Option Int :=
  tryParseIntAux NumberString.data 0

/-- Local accumulator state of `FPathStructure::TryParse`, one field per C++
local variable. -/
structure ParseState where
  CurrentFillingMode : ECurrentFillingMode
  WorldName : String
  LevelName : String
  LevelIndexNumber : Int
  ActorName : String
  ActorIndexNumber : Int
  ComponentNames : List String
  ComponentIndices : List Int
  WorldSection : String
  LevelSection : String
  ActorSection : String
  ComponentSection : String
  LevelIndexSection : String
  ActorIndexSection : String
  ComponentIndexSection : String
  deriving DecidableEq, Repr

/-- Initial parser state (mode starts at `World`, everything else empty). -/
def initParseState : ParseState :=
  ⟨.World, "", "", 0, "", 0, [], [], "", "", "", "", "", "", ""⟩

/-- Appends a character to the buffer of the current mode, mirroring the
seven trailing `if (CurrentFillingMode == X) Section += Path[i];` blocks. -/
def appendToSection (c : Char) (st : ParseState) : ParseState :=
  match st.CurrentFillingMode with
  | .World => { st with WorldSection := st.WorldSection.push c }
  | .Level => { st with LevelSection := st.LevelSection.push c }
  | .Actor => { st with ActorSection := st.ActorSection.push c }
  | .Component => { st with ComponentSection := st.ComponentSection.push c }
  | .LevelIdx => { st with LevelIndexSection := st.LevelIndexSection.push c }
  | .ActorIdx => { st with ActorIndexSection := st.ActorIndexSection.push c }
  | .ComponentIndex => { st with ComponentIndexSection := st.ComponentIndexSection.push c }

/-- Main character loop of `FPathStructure::TryParse`.  The two-character
triggers consume two characters (the C++ `SkipNext` flag); all branch guards
and their order mirror the source. -/
def tryParseLoop : List Char → ParseState → Except String ParseState
  | [], st => .ok st
  | '@' :: rest, st =>
    tryParseLoop rest { st with WorldName := st.WorldSection, CurrentFillingMode := .Level }
  | ':' :: '/' :: rest, st =>
    match FPathStructure.TryParseInt st.LevelIndexSection with
    | none => .error ("Failed to parse level index: " ++ st.LevelIndexSection)
    | some LevelIndex =>
      tryParseLoop rest { st with
        LevelName := st.LevelSection, LevelIndexNumber := LevelIndex,
        CurrentFillingMode := .Actor }
  | '-' :: '>' :: rest, st =>
    tryParseLoop rest { st with CurrentFillingMode := .Component }
  | c :: rest, st =>
    if c = '[' ∧ st.CurrentFillingMode = .Level then
      tryParseLoop rest { st with CurrentFillingMode := .LevelIdx }
    else if c = ']' ∧ st.CurrentFillingMode = .LevelIdx then
      tryParseLoop rest { st with CurrentFillingMode := .Level }
    else if c = '[' ∧ st.CurrentFillingMode = .Actor then
      tryParseLoop rest { st with CurrentFillingMode := .ActorIdx }
    else if c = ']' ∧ st.CurrentFillingMode = .ActorIdx then
      match FPathStructure.TryParseInt st.ActorIndexSection with
      | none => .error ("Failed to parse actor index: " ++ st.ActorIndexSection)
      | some ActorIndex =>
        tryParseLoop rest { st with
          ActorName := st.ActorSection, ActorIndexNumber := ActorIndex,
          CurrentFillingMode := .Actor }
    else if c = '[' ∧ st.CurrentFillingMode = .Component then
      tryParseLoop rest { st with CurrentFillingMode := .ComponentIndex }
    else if c = ']' ∧ st.CurrentFillingMode = .ComponentIndex then
      tryParseLoop rest { st with CurrentFillingMode := .Component }
    else if c = '/' ∧ st.CurrentFillingMode = .Component then
      match FPathStructure.TryParseInt st.ComponentIndexSection with
      | none => .error ("Failed to parse component index: " ++ st.ComponentIndexSection)
      | some ComponentIndex =>
        tryParseLoop rest { st with
          ComponentNames := st.ComponentNames ++ [st.ComponentSection],
          ComponentIndices := st.ComponentIndices ++ [ComponentIndex],
          ComponentSection := "", ComponentIndexSection := "" }
    else
      tryParseLoop rest (appendToSection c st)

/-- `FPathStructure::TryParse` (bool + error out-param modelled as `Except`).
After the character loop the source checks the three required names and the
component name/index pairing; note that it performs no end-of-input commit of
the pending component buffers. -/
def FPathStructure.TryParse (Path : String) : Except String FPathStructure :=
  match tryParseLoop Path.data initParseState with
  | .error e => .error e
  | .ok st =>
    if st.WorldName = "" ∨ st.LevelName = "" ∨ st.ActorName = "" then
      .error "Missing required path components"
    else if st.ComponentNames.length ≠ st.ComponentIndices.length then
      .error "Component names and indices must be the same length"
    else
      .ok ⟨st.WorldName, st.LevelName, st.LevelIndexNumber, st.ActorName,
           st.ActorIndexNumber, st.ComponentNames, st.ComponentIndices⟩

/-- Live actor component, modelling `UActorComponent`: textual name, stable
unique id, and whether the object supports the scene-component capability
(`Cast<USceneComponent>` succeeding). -/
structure UActorComponentM where
  Name : String
  UniqueID : Nat
  IsSceneComponent : Bool
  deriving DecidableEq, Repr

/-- Live actor, modelling `AActor`: name plus its component set (the set is
unordered in the host; the core re-sorts it by unique id). -/
structure AActorM where
  Name : String
  Components : List UActorComponentM
  deriving DecidableEq, Repr

/-- Live level, modelling `ULevel`: name plus its actor list in the host's
natural order. -/
structure ULevelM where
  Name : String
  Actors : List AActorM
  deriving DecidableEq, Repr

/-- Live world, modelling `UWorld`: name, persistent level, and streaming
levels in the host's declared order. -/
structure UWorldM where
  Name : String
  PersistentLevel : ULevelM
  StreamingLevels : List ULevelM
  deriving DecidableEq, Repr

/-- Snapshot of all loaded worlds, the scope that `FindObject` with
`ANY_PACKAGE` searches. -/
structure WorldEnv where
  Worlds : List UWorldM
  deriving DecidableEq, Repr

/-- `UWorldNavigator::GetAllLevelsInWorld`: the persistent level followed by
the streaming levels. -/
def GetAllLevelsInWorld (World : UWorldM) : List ULevelM :=
  World.PersistentLevel :: World.StreamingLevels

/-- `UWorldNavigator::GetAllActorsInLevel`: the level's actor array. -/
def GetAllActorsInLevel (Level : ULevelM) : List AActorM :=
  Level.Actors

/-- Insertion step of the ascending sort by `GetUniqueID`. -/
def insertByUniqueID (c : UActorComponentM) : List UActorComponentM → List UActorComponentM
  | [] => [c]
  | d :: ds => if c.UniqueID < d.UniqueID then c :: d :: ds else d :: insertByUniqueID c ds

/-- `UWorldNavigator::GetAllComponentsInActor`: the actor's component set
sorted ascending by stable unique id. -/
def GetAllComponentsInActor (Actor : AActorM) : List UActorComponentM :=
  Actor.Components.foldr insertByUniqueID []

/-- Modelled from the spec: `lookupWorldByName` — `FindObject<UWorld>` with
`ANY_PACKAGE` (engine code, not in the repository) locates a world by exact
textual name across all loaded worlds. -/
def lookupWorldByName (Env : WorldEnv) (Name : String) : Option UWorldM :=
  Env.Worlds.find? (fun w => w.Name == Name)

/-- Modelled from the spec: `FindObject<ULevel>` scoped under a world (engine
code, not in the repository) finds a level of that world by exact name. -/
def findLevelInWorld (World : UWorldM) (Name : String) : Option ULevelM :=
  (GetAllLevelsInWorld World).find? (fun l => l.Name == Name)

/-- Modelled from the spec: `FindObject<AActor>` scoped under a level (engine
code, not in the repository) finds an actor of that level by exact name. -/
def findActorInLevel (Level : ULevelM) (Name : String) : Option AActorM :=
  Level.Actors.find? (fun a => a.Name == Name)

/-- Default-constructed `FPathStructure`, used by the resolver when `TryParse`
fails.  The C++ leaves the integer fields uninitialized; they are modelled as
0, which is never observed because the empty world name already fails the
world lookup in any snapshot whose worlds are named. -/
def defaultPathStructure : FPathStructure :=
  ⟨"", "", 0, "", 0, [], []⟩

/-- Result of one resolver entry point: the returned handle (or `none` for a
`nullptr` return) or a raised `throw FString`, together with the diagnostics
the call wrote to the log channel. -/
inductive FindResult (α : Type) where
  | found : α → List String → FindResult α
  | absent : List String → FindResult α
  | fatalThrow : String → List String → FindResult α
  deriving DecidableEq, Repr

/-- The shared parse step of the resolver entry points: a parse failure is
logged and the walk continues with a default-constructed record. -/
def parseForNavigation (Path : String) : FPathStructure × List String :=
  match FPathStructure.TryParse Path with
  | .ok r => (r, [])
  | .error e => (defaultPathStructure, [e])

/-- Occurrence scan shared by the level and actor lookups: walk the list,
skip entries whose name differs, return the entry whose running count of
same-named hits equals the target index. -/
def selectNthGo {α : Type} (getName : α → String) (TargetName : String) (TargetIndex : Int) :
    List α → Int → Option α
  | [], _ => none
  | x :: rest, sameNumberHit =>
    if getName x ≠ TargetName then selectNthGo getName TargetName TargetIndex rest sameNumberHit
    else if sameNumberHit = TargetIndex then some x
    else selectNthGo getName TargetName TargetIndex rest (sameNumberHit + 1)

/-- Entry scan of the resolver loops over levels and actors (counter starts
at zero). -/
def selectNth {α : Type} (getName : α → String) (TargetName : String) (TargetIndex : Int)
    (xs : List α) : Option α :=
  selectNthGo getName TargetName TargetIndex xs 0

/-- Inner component scan of the component walk.  With `SceneOnly` set,
components failing the scene-component cast are skipped entirely (they are
not counted), mirroring `FindSceneComponentByPath`; the scan returns the
match (if the running hit count reached the target index) together with the
final value of `sameNumberHit`. -/
def scanComponentGo (SceneOnly : Bool) (ComponentName : String) (TargetIndex : Int) :
    List UActorComponentM → Int → Option UActorComponentM × Int
  | [], sameNumberHit => (none, sameNumberHit)
  | c :: rest, sameNumberHit =>
    if SceneOnly ∧ ¬ c.IsSceneComponent then
      scanComponentGo SceneOnly ComponentName TargetIndex rest sameNumberHit
    else if c.Name ≠ ComponentName then
      scanComponentGo SceneOnly ComponentName TargetIndex rest sameNumberHit
    else if sameNumberHit = TargetIndex then (some c, sameNumberHit)
    else scanComponentGo SceneOnly ComponentName TargetIndex rest (sameNumberHit + 1)

/-- Outer component walk of the resolvers, mirroring the source faithfully:
`MatchingComponent` persists across steps and is only overwritten when a step
scan produces a match, and a step aborts with a `nullptr` return exactly when
its final hit count is strictly below its target index.  `none` models that
early `nullptr` return, `some none` a walk that finished with
`MatchingComponent == nullptr`, and `some (some c)` a finished walk holding a
match. -/
def walkComponentSteps (SceneOnly : Bool) (Components : List UActorComponentM) :
    List (String × Int) → Option UActorComponentM → Option (Option UActorComponentM)
  | [], MatchingComponent => some MatchingComponent
  | (nm, idx) :: rest, MatchingComponent =>
    let r := scanComponentGo SceneOnly nm idx Components 0
    let MatchingComponent2 := match r.1 with
      | some c => some c
      | none => MatchingComponent
    if r.2 < idx then none
    else walkComponentSteps SceneOnly Components rest MatchingComponent2

/-- Component-walk stage of `FindActorComponentByPath` (source lines 73-109),
given the already-located actor. -/
def componentStageActor (r : FPathStructure) (Actor : AActorM) (logs : List String) :
    FindResult UActorComponentM :=
  let Components := GetAllComponentsInActor Actor
  if r.ComponentNames.length ≠ r.ComponentIndices.length then
    .fatalThrow "Component names and indices must be the same length" logs
  else if r.ComponentNames.length ≠ 1 then
    .fatalThrow "Only one component layer should be specified" logs
  else
    match walkComponentSteps false Components (r.ComponentNames.zip r.ComponentIndices) none with
    | none => .absent logs
    | some none => .absent logs
    | some (some c) => .found c logs

/-- Component-walk stage of `FindSceneComponentByPath` (source lines 181-220),
given the already-located actor. -/
def componentStageScene (r : FPathStructure) (Actor : AActorM) (logs : List String) :
    FindResult UActorComponentM :=
  let Components := GetAllComponentsInActor Actor
  if r.ComponentNames.length ≠ r.ComponentIndices.length then
    .fatalThrow "Component names and indices must be the same length" logs
  else if r.ComponentNames.length = 0 then
    .fatalThrow "At least one component layer should be specified" logs
  else
    match walkComponentSteps true Components (r.ComponentNames.zip r.ComponentIndices) none with
    | none => .absent logs
    | some none => .absent logs
    | some (some c) => .found c logs

/-- `UWorldNavigator::FindActorComponentByPath`. -/
def FindActorComponentByPath (Env : WorldEnv) (Path : String) : FindResult UActorComponentM :=
  if Path = "" then .absent []
  else if Path = "[invalid world]" then .absent []
  else if Path = "[invalid level]" then .absent []
  else if Path = "[invalid actor]" then .absent []
  else
    let pr := parseForNavigation Path
    match lookupWorldByName Env pr.1.WorldName with
    | none => .absent pr.2
    | some World =>
      match selectNth ULevelM.Name pr.1.LevelName pr.1.LevelIndex (GetAllLevelsInWorld World) with
      | none => .absent pr.2
      | some MatchingLevel =>
        match selectNth AActorM.Name pr.1.ActorName pr.1.ActorIndex
            (GetAllActorsInLevel MatchingLevel) with
        | none => .absent pr.2
        | some MatchingActor => componentStageActor pr.1 MatchingActor pr.2

/-- `UWorldNavigator::FindSceneComponentByPath`. -/
def FindSceneComponentByPath (Env : WorldEnv) (Path : String) : FindResult UActorComponentM :=
  if Path = "" then .absent []
  else if Path = "[invalid world]" then .absent []
  else if Path = "[invalid level]" then .absent []
  else if Path = "[invalid actor]" then .absent []
  else
    let pr := parseForNavigation Path
    match lookupWorldByName Env pr.1.WorldName with
    | none => .absent pr.2
    | some World =>
      match selectNth ULevelM.Name pr.1.LevelName pr.1.LevelIndex (GetAllLevelsInWorld World) with
      | none => .absent pr.2
      | some MatchingLevel =>
        match selectNth AActorM.Name pr.1.ActorName pr.1.ActorIndex
            (GetAllActorsInLevel MatchingLevel) with
        | none => .absent pr.2
        | some MatchingActor => componentStageScene pr.1 MatchingActor pr.2

/-- `UWorldNavigator::FindUActorByPath`.  Note the source guards the empty
path and the world and level sentinels, but not `"[invalid actor]"`. -/
def FindUActorByPath (Env : WorldEnv) (Path : String) : FindResult AActorM :=
  if Path = "" then .absent []
  else if Path = "[invalid world]" then .absent []
  else if Path = "[invalid level]" then .absent []
  else
    let pr := parseForNavigation Path
    match lookupWorldByName Env pr.1.WorldName with
    | none => .absent pr.2
    | some World =>
      match findLevelInWorld World pr.1.LevelName with
      | none => .absent pr.2
      | some Level =>
        match findActorInLevel Level pr.1.ActorName with
        | none => .absent pr.2
        | some Actor => .found Actor pr.2

/-- Indexed equality scan shared by the `GetIndexOfSame*` helpers: position
of the first entry equal to the target (pointer equality in the source,
structural equality here), `-1` when absent. -/
def getIndexGo {β : Type} [DecidableEq β] (target : β) : List β → Int → Int
  | [], _ => -1
  | x :: rest, i => if x = target then i else getIndexGo target rest (i + 1)

/-- `UWorldNavigator::GetIndexOfSameLevel`.  The C++ reaches the world via
`Level->GetWorld()`; that back-reference is passed explicitly. -/
def GetIndexOfSameLevel (World : UWorldM) (Level : ULevelM) : Int :=
  getIndexGo Level (GetAllLevelsInWorld World) 0

/-- Inner loop of `GetIndexOfSameActor`: returns the index of the first level
whose actor list contains the actor. -/
def getIndexOfSameActorGo (Actor : AActorM) : List ULevelM → Int → Int
  | [], _ => -1
  | l :: rest, i =>
    if Actor ∈ GetAllActorsInLevel l then i else getIndexOfSameActorGo Actor rest (i + 1)

/-- `UWorldNavigator::GetIndexOfSameActor`.  The C++ reaches the world via
`Actor->GetWorld()`; that back-reference is passed explicitly.  Note the
returned value is the index of the containing level, not of the actor. -/
def GetIndexOfSameActor (World : UWorldM) (Actor : AActorM) : Int :=
  getIndexOfSameActorGo Actor (GetAllLevelsInWorld World) 0

/-- `UWorldNavigator::GetIndexOfSameComponent` (both overloads are textually
identical in the source).  The C++ reaches the actor via
`Component->GetOwner()`; that back-reference is passed explicitly. -/
def GetIndexOfSameComponent (Actor : AActorM) (Component : UActorComponentM) : Int :=
  getIndexGo Component (GetAllComponentsInActor Actor) 0

/-- One link of the formatted component chain: `name[index]` with the index
computed by `GetIndexOfSameComponent`. -/
def componentLink (Actor : AActorM) (Component : UActorComponentM) : String :=
  Component.Name ++ "[" ++ toString (GetIndexOfSameComponent Actor Component) ++ "]"

/-- `UWorldNavigator::GetSceneComponentHierarchy`.  The C++ walks
`GetAttachParent()` pointers through the host graph; the attach-parent chain
of the start component (immediate parent first, root last) is supplied
explicitly as `AttachChain`.  Each link is `name[index]` and the chain is
emitted root-first. -/
def GetSceneComponentHierarchy (Actor : AActorM) (Component : UActorComponentM)
    (AttachChain : List UActorComponentM) : List String :=
  ((Component :: AttachChain).map (componentLink Actor)).reverse

/-- `UWorldNavigator::GetWorldPath(AActor*)`, in the case where the actor and
its back-references are live (the null-guard branches return the sentinel
strings and are exercised only for dead objects, which values cannot model). -/
def GetWorldPathActor (World : UWorldM) (Level : ULevelM) (Actor : AActorM) : String :=
  World.Name ++ "@" ++ Level.Name ++ "[" ++ toString (GetIndexOfSameLevel World Level) ++
    "]:/" ++ Actor.Name ++ "[" ++ toString (GetIndexOfSameActor World Actor) ++ "]"

/-- `UWorldNavigator::GetWorldPath(USceneComponent*)` for a live component:
the actor prefix followed by the attach chain joined by `/`. -/
def GetWorldPathSceneComponent (World : UWorldM) (Level : ULevelM) (Actor : AActorM)
    (Component : UActorComponentM) (AttachChain : List UActorComponentM) : String :=
  World.Name ++ "@" ++ Level.Name ++ "[" ++ toString (GetIndexOfSameLevel World Level) ++
    "]:/" ++ Actor.Name ++ "[" ++ toString (GetIndexOfSameActor World Actor) ++ "]->" ++
    String.intercalate "/" (GetSceneComponentHierarchy Actor Component AttachChain)

/-- `UWorldNavigator::GetWorldPath(UActorComponent*)` for a live component:
delegates to the scene overload when the scene cast succeeds, otherwise
appends the single `name[index]` tail. -/
def GetWorldPathComponent (World : UWorldM) (Level : ULevelM) (Actor : AActorM)
    (Component : UActorComponentM) (AttachChain : List UActorComponentM) : String :=
  if Component.IsSceneComponent then
    GetWorldPathSceneComponent World Level Actor Component AttachChain
  else
    World.Name ++ "@" ++ Level.Name ++ "[" ++ toString (GetIndexOfSameLevel World Level) ++
      "]:/" ++ Actor.Name ++ "[" ++ toString (GetIndexOfSameActor World Actor) ++ "]->" ++
      Component.Name ++ "[" ++ toString (GetIndexOfSameComponent Actor Component) ++ "]"

/-- Modelled from the spec: the canonical surface syntax serializer for a
path record (the repository formats only live objects through `GetWorldPath`;
this is the record-level formatter the round-trip law quantifies over).  The
component chain is omitted when `componentSteps` is empty. -/
def formatRecord (r : FPathStructure) : String :=
  r.WorldName ++ "@" ++ r.LevelName ++ "[" ++ toString r.LevelIndex ++ "]:/" ++
    r.ActorName ++ "[" ++ toString r.ActorIndex ++ "]" ++
    (if r.ComponentNames.isEmpty then "" else
      "->" ++ String.intercalate "/" ((r.ComponentNames.zip r.ComponentIndices).map
        (fun p => p.1 ++ "[" ++ toString p.2 ++ "]")))

/-- Following the spec's words: the `k`-th entry of a sibling list whose name
equals the target, in the list's natural order (absent for a negative `k` or
when fewer than `k + 1` same-named entries exist). -/
def specNthSameName {α : Type} (getName : α → String) (TargetName : String) (TargetIndex : Int)
    (xs : List α) : Option α :=
  if TargetIndex < 0 then none
  else ((xs.filter (fun x => getName x = TargetName)).get? TargetIndex.toNat)

/-- Following the spec's words: the 0-based occurrence index of a component
among the components of the owning actor that share its name, scanning the
component list sorted ascending by stable unique id. -/
def specSameNamedOccurrenceIndex (Actor : AActorM) (c : UActorComponentM) : Nat :=
  (((GetAllComponentsInActor Actor).filter (fun d => d.Name = c.Name)).takeWhile
    (fun d => d ≠ c)).length

/-- Position of a component in the full sorted component list of the owning
actor, counting components of every name. -/
def fullListPosition (Actor : AActorM) (c : UActorComponentM) : Nat :=
  ((GetAllComponentsInActor Actor).takeWhile (fun d => d ≠ c)).length

/-- Decimal value of a digit string, most significant digit first. -/
def specDecimalValue (s : List Char) : Nat :=
  s.foldl (fun a c => a * 10 + (c.toNat - 48)) 0

/-- A successful parse rules out the empty path and the three sentinel
strings, so the resolver guards ahead of `TryParse` cannot fire. -/
theorem tryParse_ok_ne {Path : String} {r : FPathStructure}
    (hp : FPathStructure.TryParse Path = .ok r) :
    Path ≠ "" ∧ Path ≠ "[invalid world]" ∧ Path ≠ "[invalid level]" ∧
      Path ≠ "[invalid actor]" := by
  refine ⟨?_, ?_, ?_, ?_⟩ <;> rintro rfl <;> exact Except.noConfusion (rfl.symm.trans hp)

/-- A successful parse commits component names and indices in pairs. -/
theorem tryParse_ok_lengths {Path : String} {r : FPathStructure}
    (hp : FPathStructure.TryParse Path = .ok r) :
    r.ComponentNames.length = r.ComponentIndices.length := by
  unfold FPathStructure.TryParse at hp
  cases h : tryParseLoop Path.data initParseState with
  | error e => rw [h] at hp; exact Except.noConfusion hp
  | ok st =>
    rw [h] at hp
    dsimp only at hp
    by_cases h1 : st.WorldName = "" ∨ st.LevelName = "" ∨ st.ActorName = ""
    · rw [if_pos h1] at hp; exact Except.noConfusion hp
    · rw [if_neg h1] at hp
      by_cases h2 : st.ComponentNames.length ≠ st.ComponentIndices.length
      · rw [if_pos h2] at hp; exact Except.noConfusion hp
      · rw [if_neg h2] at hp
        injection hp with hr
        rw [← hr]
        exact of_not_not h2

/-- The occurrence scan of the resolver equals the spec's description: with a
running counter starting at `hit`, it returns the `(k - hit)`-th same-named
entry of the remaining list. -/
theorem selectNthGo_eq_spec {α : Type} (getName : α → String) (nm : String) (k : Int)
    (xs : List α) : ∀ (hit : Int), 0 ≤ hit →
      selectNthGo getName nm k xs hit =
        if k < hit then none
        else (xs.filter (fun x => getName x = nm)).get? (k - hit).toNat := by
  induction xs with
  | nil =>
    intro hit _
    simp only [selectNthGo, List.filter_nil, List.get?_nil]
    split <;> rfl
  | cons x xs ih =>
    intro hit hhit
    simp only [selectNthGo]
    by_cases hname : getName x = nm
    · rw [if_neg (fun hne => hne hname)]
      rw [List.filter_cons_of_pos (by simp [hname])]
      by_cases hk : hit = k
      · subst hk
        rw [if_pos rfl, if_neg (lt_irrefl hit)]
        simp
      · rw [if_neg hk, ih (hit + 1) (by omega)]
        by_cases hlt : k < hit
        · rw [if_pos (by omega), if_pos hlt]
        · rw [if_neg (by omega), if_neg hlt]
          have h1 : (k - hit).toNat = (k - (hit + 1)).toNat + 1 := by omega
          rw [h1, List.get?_cons_succ]
    · rw [if_pos hname, List.filter_cons_of_neg (by simp [hname])]
      exact ih hit hhit

/-- The resolver's level/actor scan computes exactly the spec-side
`specNthSameName`. -/
theorem selectNth_eq_spec {α : Type} (getName : α → String) (nm : String) (k : Int)
    (xs : List α) : selectNth getName nm k xs = specNthSameName getName nm k xs := by
  unfold selectNth specNthSameName
  rw [selectNthGo_eq_spec getName nm k xs 0 le_rfl]
  by_cases h : k < 0
  · rw [if_pos h, if_pos h]
  · rw [if_neg h, if_neg h, Int.sub_zero]

theorem int32wrap_add_mul (acc d : Int) :
    int32wrap (int32wrap (int32wrap acc * 10) + d) = int32wrap (acc * 10 + d) := by
  unfold int32wrap
  omega

/-- On digit-only input the accumulation loop of `TryParseInt` never fails
and computes the fold of the 32-bit-wrapped accumulation steps, which equals
the single wrap of the exact accumulated value. -/
theorem tryParseIntAux_digits (s : List Char) :
    ∀ (acc : Int), (∀ c ∈ s, ('0' : Char) ≤ c ∧ c ≤ '9') →
      tryParseIntAux s (int32wrap acc) =
        some (int32wrap (s.foldl (fun a c => a * 10 + ((c.toNat : Int) - 48)) acc)) := by
  induction s with
  | nil => intro acc _; simp [tryParseIntAux]
  | cons c t ih =>
    intro acc h
    have hc : ¬(c < '0' ∨ '9' < c) := by
      push_neg
      exact h c (List.mem_cons_self c t)
    simp only [tryParseIntAux, List.foldl_cons]
    rw [if_neg hc, int32wrap_add_mul]
    exact ih (acc * 10 + ((c.toNat : Int) - 48)) (fun d hd => h d (List.mem_cons_of_mem c hd))

/-- On digit-only input the integer-valued fold agrees with the natural
number decimal value of the digit string. -/
theorem foldl_digits_cast (s : List Char) :
    ∀ (A : Nat), (∀ c ∈ s, ('0' : Char) ≤ c ∧ c ≤ '9') →
      s.foldl (fun a c => a * 10 + ((c.toNat : Int) - 48)) (A : Int) =
        ((s.foldl (fun a c => a * 10 + (c.toNat - 48)) A : Nat) : Int) := by
  induction s with
  | nil => intro A _; simp
  | cons c t ih =>
    intro A h
    have h48 : 48 ≤ c.toNat := by
      have := (h c (List.mem_cons_self c t)).1
      simpa [Char.le_def] using this
    simp only [List.foldl_cons]
    rw [show ((A : Int) * 10 + ((c.toNat : Int) - 48)) =
        ((A * 10 + (c.toNat - 48) : Nat) : Int) by push_cast [h48]; ring]
    exact ih _ (fun d hd => h d (List.mem_cons_of_mem c hd))

/-- Claim C1.  The spec asserts an end-of-input commit of the pending
component buffers when the mode register rests in Component; evaluating the
embedded `TryParse` at the spec's own example shows the parse succeeds but
yields an empty component chain, not `[("Mesh", 0)]`: the source has no
commit after the character loop. -/
theorem c1_final_component_commit_missing :
    FPathStructure.TryParse "MyWorld@Main[0]:/Player[0]->Mesh[0]" =
      .ok ⟨"MyWorld", "Main", 0, "Player", 0, [], []⟩ ∧
    (⟨"MyWorld", "Main", 0, "Player", 0, [], []⟩ : FPathStructure) ≠
      ⟨"MyWorld", "Main", 0, "Player", 0, ["Mesh"], [0]⟩ := by
  exact ⟨rfl, by decide⟩

/-- Claim C2.  A record produced by a successful parse (via a trailing `/`
commit) serializes to the canonical syntax, but re-parsing that canonical
string drops the final component step: the round-trip law fails on the code
for every record with a non-empty component chain. -/
theorem c2_roundtrip_drops_final_step :
    FPathStructure.TryParse "W@L[0]:/A[0]->C[0]/" =
      .ok ⟨"W", "L", 0, "A", 0, ["C"], [0]⟩ ∧
    formatRecord ⟨"W", "L", 0, "A", 0, ["C"], [0]⟩ = "W@L[0]:/A[0]->C[0]" ∧
    FPathStructure.TryParse "W@L[0]:/A[0]->C[0]" = .ok ⟨"W", "L", 0, "A", 0, [], []⟩ ∧
    (⟨"W", "L", 0, "A", 0, [], []⟩ : FPathStructure) ≠ ⟨"W", "L", 0, "A", 0, ["C"], [0]⟩ := by
  exact ⟨rfl, rfl, rfl, by decide⟩

/-- Claim C7.  A non-digit inside the final component's bracketed index field
is silently discarded rather than reported: the parse succeeds because the
final component buffers are never committed, contradicting the digit-only
failure condition. -/
theorem c7_nondigit_in_final_index_accepted :
    FPathStructure.TryParse "W@L[0]:/A[0]->C[x]" = .ok ⟨"W", "L", 0, "A", 0, [], []⟩ :=
  rfl

/-- Claim C9.  An index buffer that is empty at commit time parses as zero
(`TryParseInt` of the empty string succeeds with 0), and the boundary input
`W@L[]:/A[0]->C[0]` parses successfully with `levelIndex = 0`. -/
theorem c9_empty_index_buffer_is_zero :
    FPathStructure.TryParseInt "" = some 0 ∧
    FPathStructure.TryParse "W@L[]:/A[0]->C[0]" = .ok ⟨"W", "L", 0, "A", 0, [], []⟩ :=
  ⟨rfl, rfl⟩

/-- Claim C10.  `TryParseInt` accumulates in 32-bit signed arithmetic with no
overflow check: every digit-only string succeeds and yields the decimal value
reduced modulo 2^32 interpreted as signed, and for the digit string
`3000000000` (at least 2^31) a successful parse stores the negative level
index `-1294967296` in the record. -/
theorem c10_tryParseInt_wraps_to_negative :
    (∀ s : String, (∀ c ∈ s.data, ('0' : Char) ≤ c ∧ c ≤ '9') →
        FPathStructure.TryParseInt s = some (int32wrap (specDecimalValue s.data))) ∧
    FPathStructure.TryParse "W@L[3000000000]:/A[0]" =
      .ok ⟨"W", "L", -1294967296, "A", 0, [], []⟩ ∧
    int32wrap (specDecimalValue "3000000000".data) = -1294967296 ∧
    (-1294967296 : Int) < 0 := by
  refine ⟨?_, rfl, by decide, by decide⟩
  intro s h
  unfold FPathStructure.TryParseInt
  have h1 := tryParseIntAux_digits s.data 0 h
  rw [show int32wrap (0 : Int) = 0 from by decide] at h1
  have h2 := foldl_digits_cast s.data 0 h
  rw [Nat.cast_zero] at h2
  rw [h1]
  unfold specDecimalValue
  rw [← h2]

/-- Witness for the universal part of the C10 theorem at the concrete
overflowing digit string. -/
theorem c10_witness :
    FPathStructure.TryParseInt "3000000000" =
      some (int32wrap (specDecimalValue "3000000000".data)) :=
  c10_tryParseInt_wraps_to_negative.1 "3000000000" (by decide)

/-- Claim C3.  The parsed path has two component steps; the actor owns no
scene component named `Ghost` at all, so the scan for the second step
exhausts its candidates with zero hits — yet, because the exhaustion guard
only fires when the hit count is strictly below the step index and the match
variable is never reset between steps, the call returns the `Mesh` component
matched by the first step instead of absent. -/
theorem c3_stale_match_returned_on_exhausted_step :
    FindSceneComponentByPath ⟨[⟨"W", ⟨"L", [⟨"A", [⟨"Mesh", 0, true⟩]⟩]⟩, []⟩]⟩
        "W@L[0]:/A[0]->Mesh[0]/Ghost[0]/" = .found ⟨"Mesh", 0, true⟩ [] ∧
    FPathStructure.TryParse "W@L[0]:/A[0]->Mesh[0]/Ghost[0]/" =
      .ok ⟨"W", "L", 0, "A", 0, ["Mesh", "Ghost"], [0, 0]⟩ ∧
    (GetAllComponentsInActor ⟨"A", [⟨"Mesh", 0, true⟩]⟩).filter
        (fun c => c.IsSceneComponent && (c.Name == "Ghost")) = [] :=
  ⟨rfl, rfl, rfl⟩

/-- Claim C5.  `FindActorComponentByPath` and `FindSceneComponentByPath`
return absent with no diagnostic on all three sentinels, and
`FindUActorByPath` does so for the world and level sentinels — but
`FindUActorByPath` has no guard for `"[invalid actor]"`: that input reaches
the parser, fails, and emits the parse-error diagnostic before returning
absent. -/
theorem c5_invalid_actor_sentinel_logs_in_findUActor :
    FindUActorByPath ⟨[]⟩ "[invalid world]" = .absent [] ∧
    FindUActorByPath ⟨[]⟩ "[invalid level]" = .absent [] ∧
    FindActorComponentByPath ⟨[]⟩ "[invalid world]" = .absent [] ∧
    FindActorComponentByPath ⟨[]⟩ "[invalid level]" = .absent [] ∧
    FindActorComponentByPath ⟨[]⟩ "[invalid actor]" = .absent [] ∧
    FindSceneComponentByPath ⟨[]⟩ "[invalid world]" = .absent [] ∧
    FindSceneComponentByPath ⟨[]⟩ "[invalid level]" = .absent [] ∧
    FindSceneComponentByPath ⟨[]⟩ "[invalid actor]" = .absent [] ∧
    FindUActorByPath ⟨[]⟩ "[invalid actor]" =
      .absent ["Missing required path components"] :=
  ⟨rfl, rfl, rfl, rfl, rfl, rfl, rfl, rfl, rfl⟩

/-- The indexed equality scan underlying the `GetIndexOfSame*` helpers finds
the position of the first occurrence of the target, offset by the starting
counter. -/
theorem getIndexGo_eq_position {β : Type} [DecidableEq β] (target : β) (xs : List β) :
    ∀ (i : Int), target ∈ xs →
      getIndexGo target xs i = i + ((xs.takeWhile (fun d => d ≠ target)).length : Int) := by
  induction xs with
  | nil => intro i h; exact absurd h (List.not_mem_nil target)
  | cons x xs ih =>
    intro i h
    by_cases hx : x = target
    · simp only [getIndexGo, if_pos hx]
      rw [List.takeWhile_cons_of_neg (by simp [hx])]
      simp
    · simp only [getIndexGo, if_neg hx]
      rw [List.takeWhile_cons_of_pos (by simp [hx])]
      have hmem : target ∈ xs := by
        rcases List.mem_cons.mp h with h' | h'
        · exact absurd h'.symm hx
        · exact h'
      rw [ih (i + 1) hmem]
      simp only [List.length_cons]
      push_cast
      ring

/-- Claim C4, counterexample.  For an actor owning `Light` (unique id 0) and
`Mesh` (unique id 1), the formatted path of `Mesh` is `W@L[0]:/A[0]->Mesh[1]`:
the written component index is 1, the position in the full sorted component
list, while the occurrence index among same-named components is 0. -/
theorem c4_counterexample_full_list_index_written :
    GetIndexOfSameComponent ⟨"A", [⟨"Light", 0, false⟩, ⟨"Mesh", 1, false⟩]⟩
        ⟨"Mesh", 1, false⟩ = 1 ∧
    specSameNamedOccurrenceIndex ⟨"A", [⟨"Light", 0, false⟩, ⟨"Mesh", 1, false⟩]⟩
        ⟨"Mesh", 1, false⟩ = 0 ∧
    GetWorldPathComponent ⟨"W", ⟨"L", [⟨"A", [⟨"Light", 0, false⟩, ⟨"Mesh", 1, false⟩]⟩]⟩, []⟩
        ⟨"L", [⟨"A", [⟨"Light", 0, false⟩, ⟨"Mesh", 1, false⟩]⟩]⟩
        ⟨"A", [⟨"Light", 0, false⟩, ⟨"Mesh", 1, false⟩]⟩ ⟨"Mesh", 1, false⟩ [] =
      "W@L[0]:/A[0]->Mesh[1]" ∧
    GetIndexOfSameComponent ⟨"A", [⟨"Light", 0, false⟩, ⟨"Mesh", 1, false⟩]⟩
        ⟨"Mesh", 1, false⟩ ≠
      (specSameNamedOccurrenceIndex ⟨"A", [⟨"Light", 0, false⟩, ⟨"Mesh", 1, false⟩]⟩
        ⟨"Mesh", 1, false⟩ : Int) := by
  exact ⟨rfl, rfl, rfl, by decide⟩

/-- Claim C4, amended.  The component index that `GetWorldPath` writes — the
single-component tail and every attach-chain link alike are rendered through
`GetIndexOfSameComponent` — equals the component's 0-based position in the
owning actor's full component list sorted ascending by stable unique id,
counting components of every name (not the occurrence index among same-named
components). -/
theorem c4_written_index_is_full_sorted_position (Actor : AActorM) (c : UActorComponentM)
    (hmem : c ∈ GetAllComponentsInActor Actor) :
    GetIndexOfSameComponent Actor c = (fullListPosition Actor c : Int) ∧
    componentLink Actor c =
      c.Name ++ "[" ++ toString ((fullListPosition Actor c : Int)) ++ "]" := by
  have h : GetIndexOfSameComponent Actor c = (fullListPosition Actor c : Int) := by
    unfold GetIndexOfSameComponent fullListPosition
    rw [getIndexGo_eq_position c (GetAllComponentsInActor Actor) 0 hmem, zero_add]
  exact ⟨h, by rw [componentLink, h]⟩

/-- Witness for the amended C4 theorem at the counterexample's actor. -/
theorem c4_witness :
    GetIndexOfSameComponent ⟨"A", [⟨"Light", 0, false⟩, ⟨"Mesh", 1, false⟩]⟩
        ⟨"Mesh", 1, false⟩ =
      (fullListPosition ⟨"A", [⟨"Light", 0, false⟩, ⟨"Mesh", 1, false⟩]⟩
        ⟨"Mesh", 1, false⟩ : Int) ∧
    componentLink ⟨"A", [⟨"Light", 0, false⟩, ⟨"Mesh", 1, false⟩]⟩ ⟨"Mesh", 1, false⟩ =
      "Mesh" ++ "[" ++ toString ((fullListPosition
        ⟨"A", [⟨"Light", 0, false⟩, ⟨"Mesh", 1, false⟩]⟩ ⟨"Mesh", 1, false⟩ : Int)) ++ "]" :=
  c4_written_index_is_full_sorted_position
    ⟨"A", [⟨"Light", 0, false⟩, ⟨"Mesh", 1, false⟩]⟩ ⟨"Mesh", 1, false⟩ (by decide)

/-- Claim C6.  On a successfully parsed path whose world is found, both
component resolvers select as level the `levelIndex`-th same-named entry of
the world's level sequence and as actor the `actorIndex`-th same-named entry
of that level's actor list (in the spec-side `specNthSameName` sense, i.e.
the filter of same-named siblings indexed in natural order), returning
absent whenever the required occurrence does not exist, and otherwise
proceeding to the component stage with exactly the selected actor. -/
theorem c6_level_actor_occurrence_selection (Env : WorldEnv) (Path : String)
    (r : FPathStructure) (World : UWorldM)
    (hp : FPathStructure.TryParse Path = .ok r)
    (hw : lookupWorldByName Env r.WorldName = some World) :
    (specNthSameName ULevelM.Name r.LevelName r.LevelIndex (GetAllLevelsInWorld World) =
        none →
      FindActorComponentByPath Env Path = .absent [] ∧
      FindSceneComponentByPath Env Path = .absent []) ∧
    (∀ MatchingLevel,
      specNthSameName ULevelM.Name r.LevelName r.LevelIndex (GetAllLevelsInWorld World) =
          some MatchingLevel →
      (specNthSameName AActorM.Name r.ActorName r.ActorIndex
          (GetAllActorsInLevel MatchingLevel) = none →
        FindActorComponentByPath Env Path = .absent [] ∧
        FindSceneComponentByPath Env Path = .absent []) ∧
      (∀ MatchingActor,
        specNthSameName AActorM.Name r.ActorName r.ActorIndex
            (GetAllActorsInLevel MatchingLevel) = some MatchingActor →
        FindActorComponentByPath Env Path = componentStageActor r MatchingActor [] ∧
        FindSceneComponentByPath Env Path = componentStageScene r MatchingActor [])) := by
  obtain ⟨h1, h2, h3, h4⟩ := tryParse_ok_ne hp
  have hpr : parseForNavigation Path = (r, []) := by
    unfold parseForNavigation
    rw [hp]
  have hAC : FindActorComponentByPath Env Path =
      (match specNthSameName ULevelM.Name r.LevelName r.LevelIndex
          (GetAllLevelsInWorld World) with
       | none => .absent []
       | some MatchingLevel =>
         match specNthSameName AActorM.Name r.ActorName r.ActorIndex
             (GetAllActorsInLevel MatchingLevel) with
         | none => .absent []
         | some MatchingActor => componentStageActor r MatchingActor []) := by
    simp only [FindActorComponentByPath, hpr, h1, h2, h3, h4, hw, selectNth_eq_spec,
      if_false, if_neg, ite_false]
  have hSC : FindSceneComponentByPath Env Path =
      (match specNthSameName ULevelM.Name r.LevelName r.LevelIndex
          (GetAllLevelsInWorld World) with
       | none => .absent []
       | some MatchingLevel =>
         match specNthSameName AActorM.Name r.ActorName r.ActorIndex
             (GetAllActorsInLevel MatchingLevel) with
         | none => .absent []
         | some MatchingActor => componentStageScene r MatchingActor []) := by
    simp only [FindSceneComponentByPath, hpr, h1, h2, h3, h4, hw, selectNth_eq_spec,
      if_false, if_neg, ite_false]
  refine ⟨?_, ?_⟩
  · intro hnone
    exact ⟨by rw [hAC, hnone], by rw [hSC, hnone]⟩
  · intro MatchingLevel hlv
    refine ⟨?_, ?_⟩
    · intro hanone
      constructor
      · rw [hAC, hlv]
        dsimp only
        rw [hanone]
      · rw [hSC, hlv]
        dsimp only
        rw [hanone]
    · intro MatchingActor ha
      constructor
      · rw [hAC, hlv]
        dsimp only
        rw [ha]
      · rw [hSC, hlv]
        dsimp only
        rw [ha]

/-- Witness for the C6 theorem: in a world with a single level `L`, the path
`W@L[5]:/A[0]` parses successfully but no sixth level named `L` exists, so
both resolvers return absent. -/
theorem c6_witness :
    FindActorComponentByPath ⟨[⟨"W", ⟨"L", []⟩, []⟩]⟩ "W@L[5]:/A[0]" = .absent [] ∧
    FindSceneComponentByPath ⟨[⟨"W", ⟨"L", []⟩, []⟩]⟩ "W@L[5]:/A[0]" = .absent [] :=
  (c6_level_actor_occurrence_selection ⟨[⟨"W", ⟨"L", []⟩, []⟩]⟩ "W@L[5]:/A[0]"
    ⟨"W", "L", 5, "A", 0, [], []⟩ ⟨"W", ⟨"L", []⟩, []⟩ rfl rfl).1 rfl

/-- Claim C8.  Once a successfully parsed path has reached the
component-walk stage (world, level and actor located), the
actor-component resolver raises its fatal `throw` exactly when the number
of committed component steps differs from one, and the scene-component
resolver exactly when it is zero; with conforming arity no failure is
raised and the call proceeds to the walk. -/
theorem c8_component_arity_fatal (Env : WorldEnv) (Path : String) (r : FPathStructure)
    (World : UWorldM) (MatchingLevel : ULevelM) (MatchingActor : AActorM)
    (hp : FPathStructure.TryParse Path = .ok r)
    (hw : lookupWorldByName Env r.WorldName = some World)
    (hl : selectNth ULevelM.Name r.LevelName r.LevelIndex (GetAllLevelsInWorld World) =
        some MatchingLevel)
    (ha : selectNth AActorM.Name r.ActorName r.ActorIndex
        (GetAllActorsInLevel MatchingLevel) = some MatchingActor) :
    ((∃ msg, FindActorComponentByPath Env Path = .fatalThrow msg []) ↔
        r.ComponentNames.length ≠ 1) ∧
    ((∃ msg, FindSceneComponentByPath Env Path = .fatalThrow msg []) ↔
        r.ComponentNames.length = 0) := by
  obtain ⟨h1, h2, h3, h4⟩ := tryParse_ok_ne hp
  have hlen := tryParse_ok_lengths hp
  have hpr : parseForNavigation Path = (r, []) := by
    unfold parseForNavigation
    rw [hp]
  have hAC : FindActorComponentByPath Env Path = componentStageActor r MatchingActor [] := by
    simp only [FindActorComponentByPath, hpr, h1, h2, h3, h4, hw, hl, ha,
      if_false, if_neg, ite_false]
  have hSC : FindSceneComponentByPath Env Path = componentStageScene r MatchingActor [] := by
    simp only [FindSceneComponentByPath, hpr, h1, h2, h3, h4, hw, hl, ha,
      if_false, if_neg, ite_false]
  constructor
  · rw [hAC]
    unfold componentStageActor
    rw [if_neg (fun hne => hne hlen)]
    by_cases hn : r.ComponentNames.length ≠ 1
    · rw [if_pos hn]
      exact ⟨fun _ => hn,
        fun _ => ⟨"Only one component layer should be specified", rfl⟩⟩
    · rw [if_neg hn]
      constructor
      · rintro ⟨msg, hmsg⟩
        rcases hwalk : walkComponentSteps false (GetAllComponentsInActor MatchingActor)
            (r.ComponentNames.zip r.ComponentIndices) none with _ | inner
        · rw [hwalk] at hmsg
          exact FindResult.noConfusion hmsg
        · rcases inner with _ | c
          · rw [hwalk] at hmsg
            exact FindResult.noConfusion hmsg
          · rw [hwalk] at hmsg
            exact FindResult.noConfusion hmsg
      · intro hcontra
        exact absurd hcontra hn
  · rw [hSC]
    unfold componentStageScene
    rw [if_neg (fun hne => hne hlen)]
    by_cases hn : r.ComponentNames.length = 0
    · rw [if_pos hn]
      exact ⟨fun _ => hn,
        fun _ => ⟨"At least one component layer should be specified", rfl⟩⟩
    · rw [if_neg hn]
      constructor
      · rintro ⟨msg, hmsg⟩
        rcases hwalk : walkComponentSteps true (GetAllComponentsInActor MatchingActor)
            (r.ComponentNames.zip r.ComponentIndices) none with _ | inner
        · rw [hwalk] at hmsg
          exact FindResult.noConfusion hmsg
        · rcases inner with _ | c
          · rw [hwalk] at hmsg
            exact FindResult.noConfusion hmsg
          · rw [hwalk] at hmsg
            exact FindResult.noConfusion hmsg
      · intro hcontra
        exact absurd hcontra hn

/-- Witness for the C8 theorem: a one-step path resolved against a matching
snapshot raises no fatal failure in either resolver. -/
theorem c8_witness :
    ((∃ msg, FindActorComponentByPath ⟨[⟨"W", ⟨"L", [⟨"A", [⟨"C", 0, true⟩]⟩]⟩, []⟩]⟩
        "W@L[0]:/A[0]->C[0]/" = .fatalThrow msg []) ↔
      (FPathStructure.mk "W" "L" 0 "A" 0 ["C"] [0]).ComponentNames.length ≠ 1) ∧
    ((∃ msg, FindSceneComponentByPath ⟨[⟨"W", ⟨"L", [⟨"A", [⟨"C", 0, true⟩]⟩]⟩, []⟩]⟩
        "W@L[0]:/A[0]->C[0]/" = .fatalThrow msg []) ↔
      (FPathStructure.mk "W" "L" 0 "A" 0 ["C"] [0]).ComponentNames.length = 0) :=
  c8_component_arity_fatal ⟨[⟨"W", ⟨"L", [⟨"A", [⟨"C", 0, true⟩]⟩]⟩, []⟩]⟩
    "W@L[0]:/A[0]->C[0]/" ⟨"W", "L", 0, "A", 0, ["C"], [0]⟩
    ⟨"W", ⟨"L", [⟨"A", [⟨"C", 0, true⟩]⟩]⟩, []⟩ ⟨"L", [⟨"A", [⟨"C", 0, true⟩]⟩]⟩
    ⟨"A", [⟨"C", 0, true⟩]⟩ rfl rfl rfl rfl